import Mathlib

/-
Shallow embedding of the GST-RECOn reconciliation core (src/app.py).

The embedding models the pipeline of `clean_and_transform_data`, `clean_gstin`,
`perform_reconciliation`, `get_summary_text` and `save_settings` over lists of
records.  pandas DataFrames become lists of records; float amounts are embedded
as rationals; datetime values as integer day numbers (`Option Int`, `none` = NaT);
raw cells as `Option String` (`none` = a missing/NaN cell).  The pandas date
parsers (`pd.to_datetime`) are kept abstract as function parameters, since
their behaviour is library-defined; everything else is translated directly.
-/

namespace GSTRecon

/-! ### String primitives (Python string methods on the ASCII fragment)

These are expressed over the character list of the string so that every
operation is plain structural recursion. -/

/-- Python `str.lower()` on the ASCII fragment. -/
def pyLower (s : String) : String := String.mk (s.toList.map Char.toLower)

/-- Python `str.upper()` on the ASCII fragment. -/
def pyUpper (s : String) : String := String.mk (s.toList.map Char.toUpper)

/-- Python `str.strip()`: remove leading and trailing whitespace. -/
def pyStrip (s : String) : String :=
  String.mk (((s.toList.dropWhile Char.isWhitespace).reverse.dropWhile Char.isWhitespace).reverse)

/-- Characters kept by `re.sub(r'[^A-Z0-9]', '', ...)`: uppercase letters and digits. -/
def isUpperAlnum (c : Char) : Bool := c.isUpper || c.isDigit

/-- Characters kept by the numeric cleaning regex `r'[^\d.]'`: digits and the dot. -/
def isNumChar (c : Char) : Bool := c.isDigit || c = '.'

def emptyS : String := ""
def nanS : String := "nan"
def noneS : String := "None"
def noneLowerS : String := "none"
def dotS : String := "."
def underscoreS : String := "_"

/-! ### Numeric cell normalization (src/app.py lines 856-866)

`df[col].astype(str).str.replace(r'[^\d.]', '', regex=True)` then
`pd.to_numeric(..., errors='coerce').fillna(0.0)`. -/

/-- Value of a string of decimal digits. -/
def digitsVal (cs : List Char) : ℕ := cs.foldl (fun acc c => 10 * acc + (c.toNat - 48)) 0

/-! Rational arithmetic appears below through explicit `mkRat`-style operations
rather than the `+ - * / abs` of `ℚ`, so that every definition evaluates by
kernel reduction on concrete inputs; each operation is proved equal to the
corresponding standard one (`qAdd_eq` and friends) and the proofs work with the
standard operations throughout. -/

/-- Addition of rationals in explicit numerator/denominator form. -/
def qAdd (a b : ℚ) : ℚ := mkRat (a.num * (b.den : ℤ) + b.num * (a.den : ℤ)) (a.den * b.den)

/-- Subtraction of rationals in explicit numerator/denominator form. -/
def qSub (a b : ℚ) : ℚ := qAdd a (-b)

/-- Absolute value of a rational by sign case. -/
def qAbs (a : ℚ) : ℚ := if a < 0 then -a else a

/-- Multiplication by `10^k` in explicit form. -/
def qMulPow10 (a : ℚ) (k : ℕ) : ℚ := mkRat (a.num * (10 : ℤ) ^ k) a.den

/-- Division by `10^k` in explicit form. -/
def qDivPow10 (a : ℚ) (k : ℕ) : ℚ := mkRat a.num (a.den * 10 ^ k)

/-- Split a character list on the dot character (Python `str.split('.')`). -/
def splitDot : List Char → List (List Char)
  | [] => [[]]
  | c :: rest =>
      match splitDot rest with
      | [] => [[]]
      | g :: gs => if c = '.' then [] :: g :: gs else (c :: g) :: gs

/-- The float parse performed by `pd.to_numeric` on a string consisting of digits
and dots only (the post-strip alphabet): at most one dot and at least one digit,
otherwise the value is coerced to NaN (`none`). -/
def parseDecimal (s : String) : Option ℚ :=
  match splitDot s.toList with
  | [ip] =>
      if ip.length ≠ 0 ∧ ip.all Char.isDigit then some (digitsVal ip : ℚ)
      else none
  | [ip, fp] =>
      if (ip.length + fp.length ≠ 0) ∧ ip.all Char.isDigit ∧ fp.all Char.isDigit
      then some (mkRat (digitsVal ip * 10 ^ fp.length + digitsVal fp : ℕ) (10 ^ fp.length))
      else none
  | _ => none

/-- Strip every character that is not a digit or a dot (`str.replace(r'[^\d.]', '')`). -/
def stripNonNum (s : String) : String := String.mk (s.toList.filter isNumChar)

/-- Full numeric cell normalization: strip, parse, default to `0.0`.
A NaN cell rendered by `astype(str)` is the string `"nan"`, which strips to `""`
and coerces to NaN, hence `0.0` - the same value `fillna(0.0)` produces. -/
def cleanNumericCell (s : String) : ℚ := (parseDecimal (stripNonNum s)).getD 0

/-! ### Identifier cleansing `clean_gstin` (src/app.py lines 907-938) -/

/-- The character list after strip, uppercase and the removal of every
character outside `A-Z0-9` (the first half of `clean_gstin`). -/
def gstinCleanedChars (s : String) : List Char :=
  (pyUpper (pyStrip s)).toList.filter isUpperAlnum

/-- Embeds `clean_gstin`.  A `none` input models a NaN cell (`pd.isna`).
The validity regex only controls a log warning; the cleaned value is returned
in both branches, so it does not appear here. -/
def clean_gstin (gstin : Option String) : String :=
  match gstin with
  | none => emptyS
  | some s =>
      if pyLower (pyStrip s) = emptyS ∨ pyLower (pyStrip s) = nanS ∨
        pyLower (pyStrip s) = noneLowerS
      then emptyS
      else
        if (gstinCleanedChars s).length > 15 then String.mk ((gstinCleanedChars s).take 15)
        else if (gstinCleanedChars s).length < 15 then
          String.mk (gstinCleanedChars s ++ List.replicate (15 - (gstinCleanedChars s).length) 'X')
        else String.mk (gstinCleanedChars s)

/-- The structural validity pattern of `clean_gstin`, i.e.
`re.fullmatch` of 2 digits, 5 uppercase letters, 4 digits, 1 uppercase letter,
1 character in 1-9 or A-Z, a literal Z, and 1 character in 0-9 or A-Z,
together with the redundant `len == 15` and `g[:2].isdigit()` checks. -/
def gstinPatternOk (s : String) : Bool :=
  let cs := s.toList
  (cs.length == 15)
  && (cs.getD 0 ' ').isDigit && (cs.getD 1 ' ').isDigit
  && (cs.getD 2 ' ').isUpper && (cs.getD 3 ' ').isUpper && (cs.getD 4 ' ').isUpper
  && (cs.getD 5 ' ').isUpper && (cs.getD 6 ' ').isUpper
  && (cs.getD 7 ' ').isDigit && (cs.getD 8 ' ').isDigit
  && (cs.getD 9 ' ').isDigit && (cs.getD 10 ' ').isDigit
  && (cs.getD 11 ' ').isUpper
  && ((cs.getD 12 ' ').isUpper || ((cs.getD 12 ' ').isDigit && cs.getD 12 ' ' ≠ '0'))
  && (cs.getD 13 ' ' == 'Z')
  && ((cs.getD 14 ' ').isUpper || (cs.getD 14 ' ').isDigit)

/-! ### Match key construction (src/app.py lines 875-887) -/

/-- Embeds the match-key computation: the concatenation `invoice_no + '_' + gstin`,
set to NaN when either component is one of the literal strings `''`, `'None'`,
`'nan'` (the `isin` list; the Python `None` element of that list cannot match a
string cell after `astype(str)`). -/
def matchKeyOf (inv g : String) : Option String :=
  if inv = emptyS ∨ inv = noneS ∨ inv = nanS ∨ g = emptyS ∨ g = noneS ∨ g = nanS then none
  else some (inv ++ underscoreS ++ g)

/-! ### Python float rendering

A second normalization pass feeds float columns through `astype(str)`, i.e.
Python float `str()`.  This is modelled for the nonnegative exact-decimal
rationals that the numeric normalization produces: CPython renders such a value
in fixed notation when it is 0 or lies in `[1e-4, 1e16)`, and in scientific
shortest notation (`1e+16`, `1e-05`, ...) otherwise. -/

def zeroS : String := "0"
def ePlusS : String := "e+"
def eMinusS : String := "e-"

/-- Smallest `k` with `q * 10^k` integral, up to the fuel bound (ample for every
value a float can hold). -/
def decExpAux : ℕ → ℚ → ℕ
  | 0, _ => 0
  | n + 1, q => if q.den = 1 then 0 else decExpAux n (qMulPow10 q 1) + 1

def decExp (q : ℚ) : ℕ := decExpAux 600 q

def padLeftZeros (s : String) (n : ℕ) : String :=
  String.mk (List.replicate (n - s.length) '0' ++ s.toList)

/-- Fixed-point rendering of a nonnegative exact-decimal rational, with at least
one fractional digit, as CPython prints floats: `100.0`, `0.5`, `123.45`. -/
def fixedDigits (q : ℚ) : String :=
  let k := decExp q
  if k = 0 then (toString q.num.toNat) ++ dotS ++ zeroS
  else
    let s := padLeftZeros (toString (qMulPow10 q k).num.toNat) (k + 1)
    String.mk (s.toList.take (s.length - k)) ++ dotS ++ String.mk (s.toList.drop (s.length - k))

/-- Least `m ≤ fuel` with `q * 10^m ≥ 1`, for positive `q < 1`. -/
def smallExpAux : ℕ → ℚ → ℕ
  | 0, _ => 0
  | n + 1, q => if 1 ≤ q then 0 else smallExpAux n (qMulPow10 q 1) + 1

/-- Fueled base-10 logarithm on naturals (structural, kernel-reducible). -/
def natLog10Aux : ℕ → ℕ → ℕ
  | 0, _ => 0
  | fuel + 1, n => if n < 10 then 0 else natLog10Aux fuel (n / 10) + 1

def natLog10 (n : ℕ) : ℕ := natLog10Aux 600 n

/-- Floor of a nonnegative rational as a natural number. -/
def ratFloorNat (q : ℚ) : ℕ := (q.num / (q.den : ℤ)).toNat

/-- Mantissa rendering inside scientific notation: an integral mantissa prints
without a fractional part (`1e+16`), otherwise with one (`1.25e+17`). -/
def mantissaStr (m : ℚ) : String :=
  if m.den = 1 then toString m.num.toNat else fixedDigits m

/-- Scientific rendering of a positive exact-decimal rational, CPython style,
with the exponent padded to at least two digits. -/
def sciRepr (q : ℚ) : String :=
  if 1 ≤ q then
    let e := natLog10 (ratFloorNat q)
    mantissaStr (qDivPow10 q e) ++ ePlusS ++ padLeftZeros (toString e) 2
  else
    let e := smallExpAux 600 q
    mantissaStr (qMulPow10 q e) ++ eMinusS ++ padLeftZeros (toString e) 2

/-- CPython `str()` of a nonnegative float holding an exact decimal value:
scientific when the value is nonzero and below `1e-4` (stated as `q * 10^4 < 1`)
or at least `1e16`, fixed otherwise. -/
def pyFloatStr (q : ℚ) : String :=
  if q = 0 then fixedDigits q
  else if qMulPow10 q 4 < 1 ∨ (10 : ℚ) ^ 16 ≤ q then sciRepr q
  else fixedDigits q

/-! ### Date cell normalization (src/app.py lines 845-853)

The pandas parsers are abstract parameters (`String → Option Int`, a date being
an integer day number).  The source first overwrites the column with the
day-first coerced parse and then re-parses the rows that are NaT - but by then
those cells hold NaT, not the original text, and `pd.to_datetime` of NaT with
`format='mixed'`, `errors='coerce'` is NaT again. -/

/-- Embeds the two-step date conversion exactly as executed: the second,
mixed-format pass receives the already-coerced (NaT) cell. -/
def normalizeDateCell (dayFirst mixed : String → Option Int) (cell : Option String) : Option Int :=
  match cell.bind dayFirst with
  | some d => some d
  | none => (none : Option String).bind mixed

/-- The date conversion as the spec describes it: a mixed-format parse of the
original input value for every value on which the day-first parse fails. -/
def normalizeDateCellSpec (dayFirst mixed : String → Option Int) (cell : Option String) :
    Option Int :=
  match cell with
  | none => none
  | some s =>
      match dayFirst s with
      | some d => some d
      | none => mixed s

/-! ### Records and `clean_and_transform_data` (src/app.py lines 759-905) -/

/-- One raw input row, after column-name standardization has aligned it to the
fixed schema.  `none` models a missing/NaN cell (a column absent from the input
is created filled with nulls). -/
structure RawRecord where
  invoice_no : Option String
  invoice_date : Option String
  supplier_gstin : Option String
  taxable_value : Option String
  cgst : Option String
  sgst : Option String
  igst : Option String
  total_amount : Option String
  place_of_supply : Option String
  book_entry_date : Option String
deriving DecidableEq, Repr

/-- One normalized row of the fixed output schema. `book_entry_date` exists only
for the Books source and is `none` otherwise. -/
structure CleanRecord where
  invoice_no : String
  invoice_date : Option Int
  supplier_gstin : String
  taxable_value : ℚ
  cgst : ℚ
  sgst : ℚ
  igst : ℚ
  total_amount : ℚ
  place_of_supply : String
  book_entry_date : Option Int
  match_key : Option String
deriving DecidableEq, Repr

/-- `astype(str)` on a possibly-null cell: NaN renders as the text `nan`.
(A column created from scratch is filled with `None` and renders `None`; both
renderings are placeholder strings with identical downstream treatment - they
strip to an empty numeric, undefine the match key, and are fixed by a second
pass - so the embedding uses the single rendering `nan`.) -/
def asStrCell : Option String → String
  | none => nanS
  | some s => s

/-- Embeds the per-row value transformation of `clean_and_transform_data`:
date coercion, numeric strip-and-parse with zero default, GSTIN cleansing
(when enabled; otherwise `fillna('')`), place-of-supply `fillna('')`, and the
derived match key. -/
def cleanRecord (autoClean isBooks : Bool) (dayFirst mixed : String → Option Int)
    (r : RawRecord) : CleanRecord :=
  let inv := asStrCell r.invoice_no
  let g := if autoClean then clean_gstin r.supplier_gstin else r.supplier_gstin.getD emptyS
  { invoice_no := inv
    invoice_date := normalizeDateCell dayFirst mixed r.invoice_date
    supplier_gstin := g
    taxable_value := cleanNumericCell (asStrCell r.taxable_value)
    cgst := cleanNumericCell (asStrCell r.cgst)
    sgst := cleanNumericCell (asStrCell r.sgst)
    igst := cleanNumericCell (asStrCell r.igst)
    total_amount := cleanNumericCell (asStrCell r.total_amount)
    place_of_supply := r.place_of_supply.getD emptyS
    book_entry_date := if isBooks then normalizeDateCell dayFirst mixed r.book_entry_date else none
    match_key := matchKeyOf inv g }

/-- Models running `clean_and_transform_data` a second time on its own typed
output row.  The output column names map back to themselves through the synonym
table; the derived match-key column normalizes to a name no synonym covers, so
it is dropped and the key recomputed.  `pd.to_datetime` on an already-datetime
column is the identity and `astype(str)` on a string column is the identity;
a float column renders through Python float `str()` before the numeric
strip-and-parse. -/
def cleanAgainRecord (autoClean isBooks : Bool) (r : CleanRecord) : CleanRecord :=
  let inv := r.invoice_no
  let g := if autoClean then clean_gstin (some r.supplier_gstin) else r.supplier_gstin
  { invoice_no := inv
    invoice_date := r.invoice_date
    supplier_gstin := g
    taxable_value := cleanNumericCell (pyFloatStr r.taxable_value)
    cgst := cleanNumericCell (pyFloatStr r.cgst)
    sgst := cleanNumericCell (pyFloatStr r.sgst)
    igst := cleanNumericCell (pyFloatStr r.igst)
    total_amount := cleanNumericCell (pyFloatStr r.total_amount)
    place_of_supply := r.place_of_supply
    book_entry_date := if isBooks then r.book_entry_date else none
    match_key := matchKeyOf inv g }

/-! ### Reconciliation engine `perform_reconciliation` (src/app.py lines 1358-1514) -/

/-- The `Source` column of a result row. -/
inductive SourceTag where
  | gstr2a
  | books
  | both
deriving DecidableEq, Repr

/-- The individual issue strings collected into the comma-joined `Issue Type`
column.  `dateDiff` carries the reported absolute day difference, `amountDiff`
and `taxDiff` the reported signed difference.  `dateFormatError` embeds the
defensive branch for a date value that fails to re-convert during comparison;
on the normalized (datetime-typed) columns that conversion never fails, so the
engine never emits it. -/
inductive Issue where
  | duplicateInGstr2a
  | duplicateInBooks
  | missingInBooks
  | missingInGstr2a
  | dateDiff (days : ℤ)
  | oneDateMissing
  | dateFormatError
  | gstinMismatch
  | amountDiff (amt : ℚ)
  | taxDiff (amt : ℚ)
deriving DecidableEq, Repr

/-- One result row.  The free-text `Details` column is a prose duplicate of the
issue list and is not modelled. -/
structure Discrepancy where
  invoiceNo : String
  source : SourceTag
  issueType : List Issue
  gstr2aDate : Option Int
  booksDate : Option Int
  gstr2aGstin : String
  booksGstin : String
  amountDiff : ℚ
  taxDiff : ℚ
deriving DecidableEq, Repr

/-- `dropna(subset=['match_key'])`: rows that carry a defined match key. -/
def keyedRows (l : List CleanRecord) : List CleanRecord :=
  l.filter (fun r => r.match_key.isSome)

/-- Rows marked by `duplicated(subset=['match_key'], keep=False)`: every row
whose key occurs at least twice in the frame. -/
def dupRows (keyed : List CleanRecord) : List CleanRecord :=
  keyed.filter (fun r => decide (2 ≤ keyed.countP (fun x => x.match_key == r.match_key)))

/-- The duplicate Discrepancy row built for one occurrence (both per-source
loops, lines 1374-1403; field placement depends on the source). -/
def mkDupDisc (src : SourceTag) (r : CleanRecord) : Discrepancy :=
  match src with
  | .gstr2a =>
      { invoiceNo := r.invoice_no, source := .gstr2a, issueType := [.duplicateInGstr2a]
        gstr2aDate := r.invoice_date, booksDate := none
        gstr2aGstin := r.supplier_gstin, booksGstin := emptyS
        amountDiff := 0, taxDiff := 0 }
  | _ =>
      { invoiceNo := r.invoice_no, source := .books, issueType := [.duplicateInBooks]
        gstr2aDate := none, booksDate := r.invoice_date
        gstr2aGstin := emptyS, booksGstin := r.supplier_gstin
        amountDiff := 0, taxDiff := 0 }

/-- One per-source duplicate-detection loop. -/
def dupSection (src : SourceTag) (keyed : List CleanRecord) : List Discrepancy :=
  (dupRows keyed).map (mkDupDisc src)

/-- `drop_duplicates(subset=['match_key'], keep='first')`: keep a row iff its
key has not been seen earlier in the frame. -/
def uniqueByKeyAux (seen : List (Option String)) : List CleanRecord → List CleanRecord
  | [] => []
  | r :: rest =>
      if seen.contains r.match_key then uniqueByKeyAux seen rest
      else r :: uniqueByKeyAux (r.match_key :: seen) rest

def uniqueByKey (l : List CleanRecord) : List CleanRecord := uniqueByKeyAux [] l

/-- Sum of the three tax components of one side. -/
def taxSum (r : CleanRecord) : ℚ := qAdd (qAdd r.cgst r.sgst) r.igst

/-- A `Missing in Books` row carries the GSTR-2A side's values and its full
amount/tax as a positive difference (lines 1416-1429). -/
def mkMissingInBooksDisc (r : CleanRecord) : Discrepancy :=
  { invoiceNo := r.invoice_no, source := .gstr2a, issueType := [.missingInBooks]
    gstr2aDate := r.invoice_date, booksDate := none
    gstr2aGstin := r.supplier_gstin, booksGstin := emptyS
    amountDiff := r.total_amount, taxDiff := taxSum r }

/-- A `Missing in GSTR-2A` row carries the Books side's values negated
(lines 1433-1446). -/
def mkMissingInGstr2aDisc (r : CleanRecord) : Discrepancy :=
  { invoiceNo := r.invoice_no, source := .books, issueType := [.missingInGstr2a]
    gstr2aDate := none, booksDate := r.invoice_date
    gstr2aGstin := emptyS, booksGstin := r.supplier_gstin
    amountDiff := -r.total_amount, taxDiff := -(taxSum r) }

/-- Keys of the deduplicated view, used as the Python `set` of keys. -/
def keySet (uniq : List CleanRecord) : List (Option String) := uniq.map (·.match_key)

/-- The `missing_in_books_keys = gstr_keys - books_keys` loop.  Python iterates
the set in unspecified hash order; the embedding fixes the first-occurrence
order of the GSTR-2A frame, which is one admissible order. -/
def missingInBooksSection (gstrKeyed booksKeyed : List CleanRecord) : List Discrepancy :=
  (((uniqueByKey gstrKeyed).filter
      (fun r => !((keySet (uniqueByKey booksKeyed)).contains r.match_key))).map
    mkMissingInBooksDisc)

/-- The `missing_in_gstr2a_keys = books_keys - gstr_keys` loop. -/
def missingInGstr2aSection (gstrKeyed booksKeyed : List CleanRecord) : List Discrepancy :=
  (((uniqueByKey booksKeyed).filter
      (fun r => !((keySet (uniqueByKey gstrKeyed)).contains r.match_key))).map
    mkMissingInGstr2aDisc)

/-- The per-pair field comparison on a common key (lines 1454-1495), returning
the collected issue list in source order: date, GSTIN, amount, tax.  The
re-coercion of the two dates is the identity on the datetime-typed column, so
the `Date format error` and exception branches cannot fire. -/
def compareIssues (dateTol : ℤ) (amountTol : ℚ) (g b : CleanRecord) : List Issue :=
  (match g.invoice_date, b.invoice_date with
    | some dg, some db => if |dg - db| > dateTol then [Issue.dateDiff |dg - db|] else []
    | some _, none => [Issue.oneDateMissing]
    | none, some _ => [Issue.oneDateMissing]
    | none, none => [])
  ++ (if pyUpper (pyStrip g.supplier_gstin) ≠ pyUpper (pyStrip b.supplier_gstin)
      then [Issue.gstinMismatch] else [])
  ++ (if qAbs (qSub g.total_amount b.total_amount) > amountTol
      then [Issue.amountDiff (qSub g.total_amount b.total_amount)] else [])
  ++ (if qAbs (qSub (taxSum g) (taxSum b)) > amountTol
      then [Issue.taxDiff (qSub (taxSum g) (taxSum b))] else [])

/-- The result row for a common key with at least one failing check
(lines 1498-1511); the GSTIN columns hold the stripped-uppercased values. -/
def mkBothDisc (dateTol : ℤ) (amountTol : ℚ) (g b : CleanRecord) : Discrepancy :=
  { invoiceNo := g.invoice_no, source := .both
    issueType := compareIssues dateTol amountTol g b
    gstr2aDate := g.invoice_date, booksDate := b.invoice_date
    gstr2aGstin := pyUpper (pyStrip g.supplier_gstin)
    booksGstin := pyUpper (pyStrip b.supplier_gstin)
    amountDiff := qSub g.total_amount b.total_amount
    taxDiff := qSub (taxSum g) (taxSum b) }

/-- The `common_keys = gstr_keys & books_keys` loop, iterated in the
first-occurrence order of the GSTR-2A frame. -/
def compareSection (dateTol : ℤ) (amountTol : ℚ) (gstrKeyed booksKeyed : List CleanRecord) :
    List Discrepancy :=
  (uniqueByKey gstrKeyed).filterMap (fun g =>
    match (uniqueByKey booksKeyed).find? (fun b => b.match_key == g.match_key) with
    | none => none
    | some b =>
        if (compareIssues dateTol amountTol g b).isEmpty then none
        else some (mkBothDisc dateTol amountTol g b))

/-- Embeds `perform_reconciliation`: duplicate detection per source, then the
two presence-matching loops, then field comparison on common keys, appended in
source order. -/
def performReconciliation (dateTol : ℤ) (amountTol : ℚ) (gstr books : List CleanRecord) :
    List Discrepancy :=
  dupSection .gstr2a (keyedRows gstr)
    ++ dupSection .books (keyedRows books)
    ++ missingInBooksSection (keyedRows gstr) (keyedRows books)
    ++ missingInGstr2aSection (keyedRows gstr) (keyedRows books)
    ++ compareSection dateTol amountTol (keyedRows gstr) (keyedRows books)

/-! ### Summary aggregator `get_summary_text` (src/app.py lines 1589-1604)

Each per-category count is a `str.contains(marker, case=False)` test on the
comma-joined `Issue Type` string.  Each marker occurs in the rendered text of
exactly the issues listed below and in no other issue's text (the numeric
payloads render as digit/currency characters), so on the modelled issue lists
the substring test is membership of a marker-matching tag. -/

/-- Marker 'Date diff'. -/
def isDateDiffIssue : Issue → Bool
  | .dateDiff _ => true
  | _ => false

/-- Marker 'Amount diff|Tax diff' (a regex alternation). -/
def isAmountOrTaxIssue : Issue → Bool
  | .amountDiff _ => true
  | .taxDiff _ => true
  | _ => false

/-- Marker 'Duplicate'. -/
def isDuplicateIssue : Issue → Bool
  | .duplicateInGstr2a => true
  | .duplicateInBooks => true
  | _ => false

/-- The figures of the generated summary text. -/
structure Summary where
  totalDiscrepancies : ℕ
  missingInBooksCount : ℕ
  missingInGstr2aCount : ℕ
  dateMismatchCount : ℕ
  amountTaxMismatchCount : ℕ
  gstinMismatchCount : ℕ
  duplicatesCount : ℕ
  totalAmountDiff : ℚ
  totalTaxDiff : ℚ
deriving DecidableEq, Repr

/-- Embeds the figure computation of `get_summary_text`. -/
def getSummary (results : List Discrepancy) : Summary :=
  { totalDiscrepancies := results.length
    missingInBooksCount := results.countP (fun d => d.issueType.any (· == Issue.missingInBooks))
    missingInGstr2aCount := results.countP (fun d => d.issueType.any (· == Issue.missingInGstr2a))
    dateMismatchCount := results.countP (fun d => d.issueType.any isDateDiffIssue)
    amountTaxMismatchCount := results.countP (fun d => d.issueType.any isAmountOrTaxIssue)
    gstinMismatchCount := results.countP (fun d => d.issueType.any (· == Issue.gstinMismatch))
    duplicatesCount := results.countP (fun d => d.issueType.any isDuplicateIssue)
    totalAmountDiff := (results.map (·.amountDiff)).sum
    totalTaxDiff := (results.map (·.taxDiff)).sum }

/-- Per-category counting as the spec's contract words it: a Discrepancy counts
once, under its first/primary tag only. -/
def specFirstTagCount (results : List Discrepancy) (p : Issue → Bool) : ℕ :=
  results.countP (fun d => match d.issueType.head? with
    | some i => p i
    | none => false)

/-- Pointwise sum of two summaries. -/
def Summary.add (a b : Summary) : Summary :=
  { totalDiscrepancies := a.totalDiscrepancies + b.totalDiscrepancies
    missingInBooksCount := a.missingInBooksCount + b.missingInBooksCount
    missingInGstr2aCount := a.missingInGstr2aCount + b.missingInGstr2aCount
    dateMismatchCount := a.dateMismatchCount + b.dateMismatchCount
    amountTaxMismatchCount := a.amountTaxMismatchCount + b.amountTaxMismatchCount
    gstinMismatchCount := a.gstinMismatchCount + b.gstinMismatchCount
    duplicatesCount := a.duplicatesCount + b.duplicatesCount
    totalAmountDiff := a.totalAmountDiff + b.totalAmountDiff
    totalTaxDiff := a.totalTaxDiff + b.totalTaxDiff }

/-! ### Settings boundary `save_settings` (src/app.py lines 1823-1849) -/

/-- The mutable settings the dialog saves into. -/
structure Settings where
  date_tolerance : ℤ
  amount_tolerance : ℚ
  auto_clean_gstin : Bool
deriving DecidableEq, Repr

/-- Python `str.isdigit` on the ASCII fragment: nonempty, every character a digit. -/
def isPyDigitStr (s : String) : Bool := s.length != 0 && s.toList.all Char.isDigit

/-- Python `float()` restricted to optionally signed plain decimal literals with
surrounding whitespace (the forms a tolerance field receives; exponent, inf and
nan spellings are outside the modelled domain). -/
def parsePyFloat (s : String) : Option ℚ :=
  match (pyStrip s).toList with
  | '-' :: rest => (parseDecimal (String.mk rest)).map (fun q => -q)
  | '+' :: rest => parseDecimal (String.mk rest)
  | _ => parseDecimal (pyStrip s)

/-- Embeds `save_settings`.  The returned flag is `true` when the success
message is shown and `false` when an error dialog is shown instead.  The date
tolerance is assigned before the amount field is validated, so an amount
failure leaves an already-updated date tolerance behind; a parseable negative
amount is clamped by `max(0.0, ...)` and reported as success. -/
def save_settings (st : Settings) (dateStr amtStr : String) (autoCleanInput : Bool) :
    Settings × Bool :=
  if ¬ (isPyDigitStr dateStr = true) then (st, false)
  else
    let st1 : Settings := { st with date_tolerance := max 0 (digitsVal dateStr.toList : ℤ) }
    match parsePyFloat amtStr with
    | none => (st1, false)
    | some a =>
        ({ st1 with amount_tolerance := max 0 a, auto_clean_gstin := autoCleanInput }, true)

/-! ### Derived predicates and maps used by the verification statements -/

/-- Is this issue an amount-difference flag. -/
def isAmountDiffIssue : Issue → Bool
  | .amountDiff _ => true
  | _ => false

/-- Is this issue a tax-difference flag. -/
def isTaxDiffIssue : Issue → Bool
  | .taxDiff _ => true
  | _ => false

/-- The issue tag of a duplicate row of the given source. -/
def dupIssueOf : SourceTag → Issue
  | .gstr2a => .duplicateInGstr2a
  | _ => .duplicateInBooks

/-- The `Source` attribution of a duplicate row of the given source. -/
def dupSourceOf : SourceTag → SourceTag
  | .gstr2a => .gstr2a
  | _ => .books

/-- The match key a duplicate row denotes, reassembled from its displayed
invoice number and GSTIN columns (placed per source). -/
def dupDiscKey (src : SourceTag) (d : Discrepancy) : String :=
  match src with
  | .gstr2a => d.invoiceNo ++ underscoreS ++ d.gstr2aGstin
  | _ => d.invoiceNo ++ underscoreS ++ d.booksGstin

/-- A row reported by the presence check as present only in GSTR-2A. -/
def isMissingInBooksDisc (d : Discrepancy) : Bool := d.issueType == [Issue.missingInBooks]

/-- A row reported by the presence check as present only in Books. -/
def isMissingInGstr2aDisc (d : Discrepancy) : Bool := d.issueType == [Issue.missingInGstr2a]

/-- The mirror of a `missing-in-Books` row under swapping the two sources:
same invoice, opposite attribution, date and GSTIN columns mirrored, amount and
tax differences negated. -/
def swapMissingBooksDisc (d : Discrepancy) : Discrepancy :=
  { invoiceNo := d.invoiceNo, source := .books, issueType := [Issue.missingInGstr2a]
    gstr2aDate := none, booksDate := d.gstr2aDate
    gstr2aGstin := emptyS, booksGstin := d.gstr2aGstin
    amountDiff := -d.amountDiff, taxDiff := -d.taxDiff }

/-- The mirror of a `missing-in-GSTR-2A` row under swapping the two sources. -/
def swapMissingGstr2aDisc (d : Discrepancy) : Discrepancy :=
  { invoiceNo := d.invoiceNo, source := .gstr2a, issueType := [Issue.missingInBooks]
    gstr2aDate := d.booksDate, booksDate := none
    gstr2aGstin := d.booksGstin, booksGstin := emptyS
    amountDiff := -d.amountDiff, taxDiff := -d.taxDiff }

/-! ### Concrete data for the closed statements -/

/-- A day-first parser that fails on the sample value (as `pd.to_datetime`
with `dayfirst=True` does on a verbose date once the column format was
inferred from another row). -/
def toyDayFirst : String → Option Int := fun _ => none

/-- A mixed-format parser that recovers the sample value. -/
def toyMixed : String → Option Int := fun _ => some 0

def toyDateS : String := "July 20 2023"

def invS : String := "INV-001"
def inv2S : String := "INV-002"
def gstin5S : String := "22AAAAA0000A1Z5"
def spaceS : String := " "
def minus100S : String := "-100"
def bigS : String := "10000000000000000"
def abcS : String := "abc"
def threeS : String := "3"
def negFiveS : String := "-5"
def g14S : String := "22AAAAA0000A1Z"
def g15S : String := "22AAAAA0000A1ZX"

/-- A normalized GSTR-2A row: total 200, dated day 0. -/
def recA : CleanRecord :=
  { invoice_no := invS, invoice_date := some 0, supplier_gstin := gstin5S
    taxable_value := 200, cgst := 0, sgst := 0, igst := 0, total_amount := 200
    place_of_supply := emptyS, book_entry_date := none
    match_key := matchKeyOf invS gstin5S }

/-- A normalized Books row with the same key: total 100, dated day 10. -/
def recB : CleanRecord :=
  { invoice_no := invS, invoice_date := some 10, supplier_gstin := gstin5S
    taxable_value := 100, cgst := 0, sgst := 0, igst := 0, total_amount := 100
    place_of_supply := emptyS, book_entry_date := none
    match_key := matchKeyOf invS gstin5S }

/-- A row with a second, distinct key. -/
def recC : CleanRecord :=
  { invoice_no := inv2S, invoice_date := some 5, supplier_gstin := gstin5S
    taxable_value := 50, cgst := 1, sgst := 1, igst := 0, total_amount := 52
    place_of_supply := emptyS, book_entry_date := none
    match_key := matchKeyOf inv2S gstin5S }

/-- A run whose single result row carries both a date tag and an amount tag. -/
def rptMultiTag : List Discrepancy := performReconciliation 3 1 [recA] [recB]

/-- The source defaults: 3 days, one rupee, cleansing on (src/app.py lines 24-26). -/
def st0 : Settings := { date_tolerance := 3, amount_tolerance := 1, auto_clean_gstin := true }

/-- A raw row whose total amount is `1e16`, at the float-repr threshold. -/
def rawBig : RawRecord :=
  { invoice_no := some invS, invoice_date := none, supplier_gstin := some gstin5S
    taxable_value := some bigS, cgst := none, sgst := none, igst := none
    total_amount := some bigS, place_of_supply := none, book_entry_date := none }

/-- A raw row with ordinary values. -/
def rawGood : RawRecord :=
  { invoice_no := some invS, invoice_date := none, supplier_gstin := some gstin5S
    taxable_value := some minus100S, cgst := none, sgst := none, igst := none
    total_amount := some minus100S, place_of_supply := none, book_entry_date := none }

/-! ## Bridge lemmas: the kernel-evaluable rational operations agree with the
standard ones -/

theorem qAdd_eq (a b : ℚ) : qAdd a b = a + b := by
  have ha : (a.den : ℤ) ≠ 0 := Int.natCast_ne_zero.mpr a.den_nz
  have hb : (b.den : ℤ) ≠ 0 := Int.natCast_ne_zero.mpr b.den_nz
  conv_rhs => rw [← Rat.num_divInt_den a, ← Rat.num_divInt_den b]
  rw [Rat.divInt_add_divInt _ _ ha hb, qAdd, Rat.mkRat_eq_divInt]
  push_cast
  rfl

theorem qSub_eq (a b : ℚ) : qSub a b = a - b := by
  rw [qSub, qAdd_eq, sub_eq_add_neg]

theorem qAbs_eq (a : ℚ) : qAbs a = |a| := by
  rw [qAbs]
  split_ifs with h
  · exact (abs_of_neg h).symm
  · exact (abs_of_nonneg (not_lt.mp h)).symm

theorem parseDecimal_nonneg (s : String) (q : ℚ) (h : parseDecimal s = some q) : 0 ≤ q := by
  rw [parseDecimal] at h
  split at h
  · split_ifs at h
    injection h with h'
    subst h'
    positivity
  · split_ifs at h
    injection h with h'
    subst h'
    rw [Rat.mkRat_eq_divInt]
    exact Rat.divInt_nonneg (by positivity) (by positivity)
  · exact absurd h (by simp)

theorem cleanNumericCell_nonneg (s : String) : 0 ≤ cleanNumericCell s := by
  rw [cleanNumericCell]
  cases h : parseDecimal (stripNonNum s) with
  | none => simp
  | some q => simpa using parseDecimal_nonneg _ _ h

/-! ## C10 -/

/-- C10: the numeric normalization strips every character that is not a digit
or a dot - a minus sign included - before parsing, so `-100` normalizes to
`+100.0` and every numeric field of a normalized record is nonnegative. -/
theorem numeric_fields_nonneg :
    (∀ s : String, 0 ≤ cleanNumericCell s) ∧
    cleanNumericCell minus100S = 100 ∧
    (∀ (ac ib : Bool) (f m : String → Option Int) (r : RawRecord),
      0 ≤ (cleanRecord ac ib f m r).taxable_value ∧
      0 ≤ (cleanRecord ac ib f m r).cgst ∧
      0 ≤ (cleanRecord ac ib f m r).sgst ∧
      0 ≤ (cleanRecord ac ib f m r).igst ∧
      0 ≤ (cleanRecord ac ib f m r).total_amount) := by
  refine ⟨cleanNumericCell_nonneg, by decide, ?_⟩
  intro ac ib f m r
  exact ⟨cleanNumericCell_nonneg _, cleanNumericCell_nonneg _, cleanNumericCell_nonneg _,
    cleanNumericCell_nonneg _, cleanNumericCell_nonneg _⟩

/-! ## C4 -/

/-- C4 counterexample: an invoice number consisting of one space trims to the
empty string, yet the match key is defined (the nullish check compares the
untrimmed literal), contradicting the claim that a component that is empty
after trimming leaves the key undefined. -/
theorem match_key_trim_cex :
    pyStrip spaceS = emptyS ∧
    matchKeyOf spaceS gstin5S = some (spaceS ++ underscoreS ++ gstin5S) := by decide

/-- C4 amended: the match key is defined - and equals the concatenation with
separator underscore - exactly when neither component is one of the literal
strings `''`, `'None'`, `'nan'`; no trimming is applied to the components.  A
record whose key is undefined is excluded from key-based matching. -/
theorem match_key_amended (inv g : String) :
    (¬ (inv = emptyS ∨ inv = noneS ∨ inv = nanS ∨ g = emptyS ∨ g = noneS ∨ g = nanS) →
      matchKeyOf inv g = some (inv ++ underscoreS ++ g)) ∧
    ((inv = emptyS ∨ inv = noneS ∨ inv = nanS ∨ g = emptyS ∨ g = noneS ∨ g = nanS) →
      matchKeyOf inv g = none) ∧
    (∀ (ac ib : Bool) (f m : String → Option Int) (r : RawRecord),
      (cleanRecord ac ib f m r).match_key =
        matchKeyOf (cleanRecord ac ib f m r).invoice_no
          (cleanRecord ac ib f m r).supplier_gstin) ∧
    (∀ (l : List CleanRecord) (r : CleanRecord), r.match_key = none → r ∉ keyedRows l) := by
  refine ⟨?_, ?_, ?_, ?_⟩
  · intro h; rw [matchKeyOf, if_neg h]
  · intro h; rw [matchKeyOf, if_pos h]
  · intro ac ib f m r; rfl
  · intro l r h hmem
    have := List.of_mem_filter hmem
    rw [h] at this
    simp at this

theorem match_key_amended_witness :
    matchKeyOf invS gstin5S = some (invS ++ underscoreS ++ gstin5S) :=
  (match_key_amended invS gstin5S).1 (by decide)

/-! ## C6 -/

/-- C6: the second, mixed-format `pd.to_datetime` pass runs on the column that
was already overwritten by the coerced day-first pass, so it only ever sees NaT
and can never recover a value: the whole conversion equals the day-first parse
alone, and a value the day-first pass fails on becomes null even when the
spec's described fallback (a mixed parse of the original text) would succeed. -/
theorem date_fallback_ineffective :
    (∀ (dayFirst mixed : String → Option Int) (cell : Option String),
      normalizeDateCell dayFirst mixed cell = cell.bind dayFirst) ∧
    normalizeDateCellSpec toyDayFirst toyMixed (some toyDateS) = some 0 ∧
    normalizeDateCell toyDayFirst toyMixed (some toyDateS) = none := by
  refine ⟨?_, rfl, rfl⟩
  intro f m cell
  rw [normalizeDateCell]
  cases h : cell.bind f
  · rfl
  · rfl

/-! ## C8 -/

/-- C8 counterexample: with the saved defaults in place, a negative amount
tolerance `-5` is not rejected - it is silently clamped to `0` (neither the
prior value `1` nor the input) and the save is reported as a success. -/
theorem save_settings_clamp_cex :
    save_settings st0 threeS negFiveS true =
      ({ date_tolerance := 3, amount_tolerance := 0, auto_clean_gstin := true }, true) ∧
    st0.amount_tolerance = 1 := by decide

/-- C8 amended: a non-digit (hence also negative) date-tolerance input is
rejected with every prior setting retained; a non-parsing amount input is
rejected only after the date tolerance has already been updated; a parseable
negative amount is silently clamped to zero and reported as success; a
nonnegative parse saves everything as given. -/
theorem save_settings_amended (st : Settings) (dateStr amtStr : String) (ac : Bool) :
    (isPyDigitStr dateStr = false → save_settings st dateStr amtStr ac = (st, false)) ∧
    (isPyDigitStr dateStr = true → parsePyFloat amtStr = none →
      save_settings st dateStr amtStr ac =
        ({ st with date_tolerance := (digitsVal dateStr.toList : ℤ) }, false)) ∧
    (∀ a : ℚ, isPyDigitStr dateStr = true → parsePyFloat amtStr = some a → a < 0 →
      save_settings st dateStr amtStr ac =
        ({ date_tolerance := (digitsVal dateStr.toList : ℤ), amount_tolerance := 0,
           auto_clean_gstin := ac }, true)) ∧
    (∀ a : ℚ, isPyDigitStr dateStr = true → parsePyFloat amtStr = some a → 0 ≤ a →
      save_settings st dateStr amtStr ac =
        ({ date_tolerance := (digitsVal dateStr.toList : ℤ), amount_tolerance := a,
           auto_clean_gstin := ac }, true)) := by
  refine ⟨?_, ?_, ?_, ?_⟩
  · intro h
    rw [save_settings]
    simp [h]
  · intro h hp
    rw [save_settings]
    simp only [h, not_true_eq_false, if_false, hp]
    rw [max_eq_right (by positivity)]
  · intro a h hp ha
    rw [save_settings]
    simp only [h, not_true_eq_false, if_false, hp]
    rw [max_eq_right (by positivity), max_eq_left ha.le]
  · intro a h hp ha
    rw [save_settings]
    simp only [h, not_true_eq_false, if_false, hp]
    rw [max_eq_right (by positivity), max_eq_right ha]

theorem save_settings_amended_witness :
    save_settings st0 abcS threeS true = (st0, false) :=
  (save_settings_amended st0 abcS threeS true).1 (by decide)

/-! ## C9 counterexample -/

/-- C9 counterexample: a 14-character cleansed identifier whose first 14
characters fit the pattern is padded with a single filler `X` and then passes
the structural check, because the terminal class (digit or letter) contains the
filler - contradicting the claim that a padded value can never pass. -/
theorem gstin_pad_cex :
    clean_gstin (some g14S) = g15S ∧ gstinPatternOk g15S = true := by decide

/-! ## C1 -/

theorem compareIssues_any_dateDiff (dateTol : ℤ) (amountTol : ℚ) (g b : CleanRecord)
    (dg db : ℤ) (hg : g.invoice_date = some dg) (hb : b.invoice_date = some db) :
    (compareIssues dateTol amountTol g b).any isDateDiffIssue = decide (dateTol < |dg - db|) := by
  rw [compareIssues, hg, hb]
  simp only [List.any_append, gt_iff_lt]
  split_ifs <;> simp_all [isDateDiffIssue]

theorem compareIssues_any_amountDiff (dateTol : ℤ) (amountTol : ℚ) (g b : CleanRecord) :
    (compareIssues dateTol amountTol g b).any isAmountDiffIssue
      = decide (amountTol < |g.total_amount - b.total_amount|) := by
  rw [compareIssues]
  simp only [List.any_append, gt_iff_lt, qAbs_eq, qSub_eq]
  cases hg : g.invoice_date <;> cases hb : b.invoice_date <;>
    split_ifs <;>
      simp_all [isAmountDiffIssue,
        apply_ite (fun l : List Issue => l.any isAmountDiffIssue)]

theorem compareIssues_any_taxDiff (dateTol : ℤ) (amountTol : ℚ) (g b : CleanRecord) :
    (compareIssues dateTol amountTol g b).any isTaxDiffIssue
      = decide (amountTol < |taxSum g - taxSum b|) := by
  rw [compareIssues]
  simp only [List.any_append, gt_iff_lt, qAbs_eq, qSub_eq]
  cases hg : g.invoice_date <;> cases hb : b.invoice_date <;>
    split_ifs <;>
      simp_all [isTaxDiffIssue, apply_ite (fun l : List Issue => l.any isTaxDiffIssue)]

/-- C1: for a matched pair, every tolerance check is strict: an absolute date
difference equal to the date tolerance produces no date flag while tolerance
plus one day does, and an absolute amount (or tax-total) difference equal to
the currency tolerance produces no flag while any strictly larger one does. -/
theorem tolerance_checks_strict (dateTol : ℤ) (amountTol : ℚ) (g b : CleanRecord)
    (dg db : ℤ) (hg : g.invoice_date = some dg) (hb : b.invoice_date = some db) :
    ((|dg - db| = dateTol →
        (compareIssues dateTol amountTol g b).any isDateDiffIssue = false) ∧
      (|dg - db| = dateTol + 1 →
        (compareIssues dateTol amountTol g b).any isDateDiffIssue = true)) ∧
    ((|g.total_amount - b.total_amount| = amountTol →
        (compareIssues dateTol amountTol g b).any isAmountDiffIssue = false) ∧
      (amountTol < |g.total_amount - b.total_amount| →
        (compareIssues dateTol amountTol g b).any isAmountDiffIssue = true)) ∧
    ((|taxSum g - taxSum b| = amountTol →
        (compareIssues dateTol amountTol g b).any isTaxDiffIssue = false) ∧
      (amountTol < |taxSum g - taxSum b| →
        (compareIssues dateTol amountTol g b).any isTaxDiffIssue = true)) := by
  rw [compareIssues_any_dateDiff dateTol amountTol g b dg db hg hb,
    compareIssues_any_amountDiff, compareIssues_any_taxDiff]
  refine ⟨⟨?_, ?_⟩, ⟨?_, ?_⟩, ⟨?_, ?_⟩⟩ <;> intro h <;> simp [h]

/-- Witness for C1 at the boundary: tolerances 10 days and 100 rupees, dates
0 and 10, amounts 200 and 100. -/
theorem tolerance_checks_strict_witness :
    ((|(0 : ℤ) - 10| = 10 →
        (compareIssues 10 100 recA recB).any isDateDiffIssue = false) ∧
      (|(0 : ℤ) - 10| = 10 + 1 →
        (compareIssues 10 100 recA recB).any isDateDiffIssue = true)) ∧
    ((|recA.total_amount - recB.total_amount| = 100 →
        (compareIssues 10 100 recA recB).any isAmountDiffIssue = false) ∧
      (100 < |recA.total_amount - recB.total_amount| →
        (compareIssues 10 100 recA recB).any isAmountDiffIssue = true)) ∧
    ((|taxSum recA - taxSum recB| = 100 →
        (compareIssues 10 100 recA recB).any isTaxDiffIssue = false) ∧
      (100 < |taxSum recA - taxSum recB| →
        (compareIssues 10 100 recA recB).any isTaxDiffIssue = true)) :=
  tolerance_checks_strict 10 100 recA recB 0 10 rfl rfl

/-! ## C2 -/

/-- C2: in either ledger, a match key occurring `n ≥ 2` times among keyed rows
produces exactly `n` duplicate rows for that key and a key occurring once
produces none; every duplicate row carries the per-source duplicate tag and
zero amount and tax difference.  The hypothesis is the normalization invariant:
every row's stored match key is the one derived from its invoice number and
identifier. -/
theorem duplicate_detection (src : SourceTag) (l : List CleanRecord) (k : String)
    (hinv : ∀ r ∈ l, r.match_key = matchKeyOf r.invoice_no r.supplier_gstin) :
    ((dupSection src (keyedRows l)).countP (fun d => dupDiscKey src d == k) =
      if 2 ≤ (keyedRows l).countP (fun r => r.match_key == some k)
      then (keyedRows l).countP (fun r => r.match_key == some k) else 0) ∧
    (∀ d ∈ dupSection src (keyedRows l),
      d.issueType = [dupIssueOf src] ∧ d.source = dupSourceOf src ∧
      d.amountDiff = 0 ∧ d.taxDiff = 0) := by
  constructor
  · have hkey : ∀ r ∈ keyedRows l,
        r.match_key = some (r.invoice_no ++ underscoreS ++ r.supplier_gstin) := by
      intro r hr
      have hmem : r ∈ l := List.mem_of_mem_filter hr
      have hsome : r.match_key.isSome = true := by simpa using List.of_mem_filter hr
      rw [hinv r hmem] at hsome ⊢
      rw [matchKeyOf] at hsome ⊢
      split_ifs at hsome ⊢ with hc
      · simp at hsome
      · rfl
    have hdk : ∀ r : CleanRecord,
        dupDiscKey src (mkDupDisc src r) = r.invoice_no ++ underscoreS ++ r.supplier_gstin := by
      intro r; cases src <;> rfl
    rw [dupSection, List.countP_map, dupRows, List.countP_filter]
    simp only [Function.comp]
    by_cases h2 : 2 ≤ (keyedRows l).countP (fun r => r.match_key == some k)
    · rw [if_pos h2]
      refine List.countP_congr ?_
      intro r hr
      by_cases hk : r.match_key = some k
      · have hsome := hkey r hr
        have hconcat : r.invoice_no ++ underscoreS ++ r.supplier_gstin = k := by
          rw [hk] at hsome
          exact Option.some.inj hsome.symm
        constructor
        · intro _
          simp [hk]
        · intro _
          simp only [Bool.and_eq_true, beq_iff_eq, decide_eq_true_eq]
          refine ⟨by rw [hdk r, hconcat], ?_⟩
          simpa only [hk] using h2
      · constructor
        · intro hp
          exfalso
          simp only [Bool.and_eq_true, beq_iff_eq] at hp
          exact hk (by rw [hkey r hr, ← hdk r, hp.1])
        · intro hq
          exact absurd (by simpa using hq) hk
    · rw [if_neg h2, List.countP_eq_zero]
      intro r hr hp
      simp only [Bool.and_eq_true, beq_iff_eq, decide_eq_true_eq] at hp
      obtain ⟨hk, hcnt⟩ := hp
      have hk' : r.match_key = some k := by
        rw [hkey r hr, ← hdk r, hk]
      rw [hk'] at hcnt
      exact h2 hcnt
  · intro d hd
    rw [dupSection] at hd
    obtain ⟨r, hr, rfl⟩ := List.mem_map.mp hd
    cases src <;> exact ⟨rfl, rfl, rfl, rfl⟩

theorem duplicate_detection_witness :
    ((dupSection SourceTag.gstr2a (keyedRows [recA, recA, recC])).countP
        (fun d => dupDiscKey SourceTag.gstr2a d == invS ++ underscoreS ++ gstin5S) =
      if 2 ≤ (keyedRows [recA, recA, recC]).countP
          (fun r => r.match_key == some (invS ++ underscoreS ++ gstin5S))
        then (keyedRows [recA, recA, recC]).countP
          (fun r => r.match_key == some (invS ++ underscoreS ++ gstin5S)) else 0) ∧
    (∀ d ∈ dupSection SourceTag.gstr2a (keyedRows [recA, recA, recC]),
      d.issueType = [dupIssueOf SourceTag.gstr2a] ∧ d.source = dupSourceOf SourceTag.gstr2a ∧
      d.amountDiff = 0 ∧ d.taxDiff = 0) :=
  duplicate_detection SourceTag.gstr2a [recA, recA, recC]
    (invS ++ underscoreS ++ gstin5S) (by decide)

/-! ## C5 -/

/-- C5 counterexample: a run producing one discrepancy tagged with both a date
difference and an amount difference counts it under the date category and the
amount/tax category simultaneously, while counting by the first/primary tag
would leave the amount/tax category empty - so the per-category counts do not
assign each row to exactly one category. -/
theorem summary_first_tag_cex :
    (getSummary rptMultiTag).totalDiscrepancies = 1 ∧
    (getSummary rptMultiTag).dateMismatchCount = 1 ∧
    (getSummary rptMultiTag).amountTaxMismatchCount = 1 ∧
    specFirstTagCount rptMultiTag isAmountOrTaxIssue = 0 := by decide

/-- C5 amended: each per-category count counts a Discrepancy once in every
category whose marker appears among its tags - a multi-tag row lands in several
categories, not once under its first tag - while the financial totals are the
plain sums of the signed differences; all figures are additive over report
concatenation, and on a single row each count is the indicator of the matching
marker. -/
theorem summary_counts_amended (xs ys : List Discrepancy) (d : Discrepancy) :
    getSummary (xs ++ ys) = Summary.add (getSummary xs) (getSummary ys) ∧
    (getSummary [d]).totalDiscrepancies = 1 ∧
    (getSummary [d]).missingInBooksCount =
      (if d.issueType.any (· == Issue.missingInBooks) then 1 else 0) ∧
    (getSummary [d]).missingInGstr2aCount =
      (if d.issueType.any (· == Issue.missingInGstr2a) then 1 else 0) ∧
    (getSummary [d]).dateMismatchCount = (if d.issueType.any isDateDiffIssue then 1 else 0) ∧
    (getSummary [d]).amountTaxMismatchCount =
      (if d.issueType.any isAmountOrTaxIssue then 1 else 0) ∧
    (getSummary [d]).gstinMismatchCount =
      (if d.issueType.any (· == Issue.gstinMismatch) then 1 else 0) ∧
    (getSummary [d]).duplicatesCount = (if d.issueType.any isDuplicateIssue then 1 else 0) ∧
    (getSummary [d]).totalAmountDiff = d.amountDiff ∧
    (getSummary [d]).totalTaxDiff = d.taxDiff := by
  refine ⟨?_, ?_, ?_, ?_, ?_, ?_, ?_, ?_, ?_, ?_⟩ <;>
    simp [getSummary, Summary.add, List.countP_append, List.sum_append,
      List.countP_cons, Nat.add_comm]

/-! ## C9 amended -/

/-- C9 amended: for every nonempty, non-placeholder input whose cleansed
(pre-pad) form has at most 13 characters, the returned value is the cleansed
form right-padded with X to 15 characters - still returned, never rejected -
and it always fails the structural pattern, because position 14 then holds the
filler X where the pattern requires the literal Z.  (A 14-character cleansed
form, by contrast, can pass: see the counterexample.) -/
theorem gstin_pad_short_invalid (s : String)
    (hnp : ¬ (pyLower (pyStrip s) = emptyS ∨ pyLower (pyStrip s) = nanS ∨
      pyLower (pyStrip s) = noneLowerS))
    (hlen : (gstinCleanedChars s).length ≤ 13) :
    clean_gstin (some s) =
      String.mk (gstinCleanedChars s ++
        List.replicate (15 - (gstinCleanedChars s).length) 'X') ∧
    gstinPatternOk (clean_gstin (some s)) = false := by
  set g := gstinCleanedChars s with hg
  have h15 : ¬ g.length > 15 := by omega
  have hlt : g.length < 15 := by omega
  have hval : clean_gstin (some s) = String.mk (g ++ List.replicate (15 - g.length) 'X') := by
    rw [clean_gstin, if_neg hnp]
    rw [← hg, if_neg h15, if_pos hlt]
  refine ⟨hval, ?_⟩
  rw [hval]
  have hchar : (String.mk (g ++ List.replicate (15 - g.length) 'X')).toList.getD 13 ' ' = 'X' := by
    show (g ++ List.replicate (15 - g.length) 'X').getD 13 ' ' = 'X'
    rw [List.getD_eq_getElem?_getD, List.getElem?_append_right hlen,
      List.getElem?_replicate_of_lt (by omega)]
    rfl
  by_contra hcontra
  rw [Bool.not_eq_false] at hcontra
  rw [gstinPatternOk] at hcontra
  simp only [Bool.and_eq_true, beq_iff_eq] at hcontra
  have hz := hcontra.1.2
  rw [hchar] at hz
  exact absurd hz (by decide)

theorem gstin_pad_short_invalid_witness :
    clean_gstin (some abcS) =
      String.mk (gstinCleanedChars abcS ++
        List.replicate (15 - (gstinCleanedChars abcS).length) 'X') ∧
    gstinPatternOk (clean_gstin (some abcS)) = false :=
  gstin_pad_short_invalid abcS (by decide) (by decide)

/-! ## C3 -/

theorem compareIssues_no_missing (t : ℤ) (a : ℚ) (g b : CleanRecord) :
    Issue.missingInBooks ∉ compareIssues t a g b ∧
    Issue.missingInGstr2a ∉ compareIssues t a g b := by
  constructor <;>
  · intro hmem
    simp only [compareIssues, List.mem_append] at hmem
    rcases hmem with ((h | h) | h) | h <;> split at h <;> simp_all

theorem dupSection_filter_missingB (src : SourceTag) (keyed : List CleanRecord) :
    (dupSection src keyed).filter isMissingInBooksDisc = [] := by
  rw [dupSection, List.filter_map]
  have : (isMissingInBooksDisc ∘ mkDupDisc src) = fun _ => false := by
    funext r; cases src <;> rfl
  rw [this, List.filter_false, List.map_nil]

theorem dupSection_filter_missingG (src : SourceTag) (keyed : List CleanRecord) :
    (dupSection src keyed).filter isMissingInGstr2aDisc = [] := by
  rw [dupSection, List.filter_map]
  have : (isMissingInGstr2aDisc ∘ mkDupDisc src) = fun _ => false := by
    funext r; cases src <;> rfl
  rw [this, List.filter_false, List.map_nil]

theorem missingB_filter_self (g b : List CleanRecord) :
    (missingInBooksSection g b).filter isMissingInBooksDisc = missingInBooksSection g b := by
  rw [missingInBooksSection, List.filter_map]
  have : (isMissingInBooksDisc ∘ mkMissingInBooksDisc) = fun _ => true := by
    funext r; rfl
  rw [this, List.filter_true]

theorem missingB_filter_other (g b : List CleanRecord) :
    (missingInBooksSection g b).filter isMissingInGstr2aDisc = [] := by
  rw [missingInBooksSection, List.filter_map]
  have : (isMissingInGstr2aDisc ∘ mkMissingInBooksDisc) = fun _ => false := by
    funext r; rfl
  rw [this, List.filter_false, List.map_nil]

theorem missingG_filter_self (g b : List CleanRecord) :
    (missingInGstr2aSection g b).filter isMissingInGstr2aDisc = missingInGstr2aSection g b := by
  rw [missingInGstr2aSection, List.filter_map]
  have : (isMissingInGstr2aDisc ∘ mkMissingInGstr2aDisc) = fun _ => true := by
    funext r; rfl
  rw [this, List.filter_true]

theorem missingG_filter_other (g b : List CleanRecord) :
    (missingInGstr2aSection g b).filter isMissingInBooksDisc = [] := by
  rw [missingInGstr2aSection, List.filter_map]
  have : (isMissingInBooksDisc ∘ mkMissingInGstr2aDisc) = fun _ => false := by
    funext r; rfl
  rw [this, List.filter_false, List.map_nil]

theorem compareSection_mem_issueType (t : ℤ) (a : ℚ) (gk bk : List CleanRecord)
    (d : Discrepancy) (hd : d ∈ compareSection t a gk bk) :
    ∃ gr br, d.issueType = compareIssues t a gr br := by
  rw [compareSection] at hd
  obtain ⟨gr, _, hf⟩ := List.mem_filterMap.mp hd
  split at hf
  · exact absurd hf (by simp)
  · split at hf
    · exact absurd hf (by simp)
    · exact ⟨gr, _, congrArg Discrepancy.issueType (Option.some.inj hf).symm⟩

theorem compareSection_filter_missingB (t : ℤ) (a : ℚ) (gk bk : List CleanRecord) :
    (compareSection t a gk bk).filter isMissingInBooksDisc = [] := by
  rw [List.filter_eq_nil_iff]
  intro d hd hp
  obtain ⟨gr, br, hiss⟩ := compareSection_mem_issueType t a gk bk d hd
  rw [isMissingInBooksDisc, beq_iff_eq, hiss] at hp
  have : Issue.missingInBooks ∈ compareIssues t a gr br := by
    rw [hp]; exact List.mem_singleton_self _
  exact (compareIssues_no_missing t a gr br).1 this

theorem compareSection_filter_missingG (t : ℤ) (a : ℚ) (gk bk : List CleanRecord) :
    (compareSection t a gk bk).filter isMissingInGstr2aDisc = [] := by
  rw [List.filter_eq_nil_iff]
  intro d hd hp
  obtain ⟨gr, br, hiss⟩ := compareSection_mem_issueType t a gk bk d hd
  rw [isMissingInGstr2aDisc, beq_iff_eq, hiss] at hp
  have : Issue.missingInGstr2a ∈ compareIssues t a gr br := by
    rw [hp]; exact List.mem_singleton_self _
  exact (compareIssues_no_missing t a gr br).2 this

theorem missingSection_swapBG (X Y : List CleanRecord) :
    missingInGstr2aSection X Y = (missingInBooksSection Y X).map swapMissingBooksDisc := by
  rw [missingInGstr2aSection, missingInBooksSection, List.map_map]
  rfl

theorem missingSection_swapGB (X Y : List CleanRecord) :
    missingInBooksSection X Y = (missingInGstr2aSection Y X).map swapMissingGstr2aDisc := by
  rw [missingInGstr2aSection, missingInBooksSection, List.map_map]
  symm
  apply List.map_congr_left
  intro r _
  show swapMissingGstr2aDisc (mkMissingInGstr2aDisc r) = mkMissingInBooksDisc r
  simp [swapMissingGstr2aDisc, mkMissingInGstr2aDisc, mkMissingInBooksDisc, neg_neg]

/-- C3: swapping the two ledgers turns the list of `missing-in-Books` rows into
the list of `missing-in-GSTR-2A` rows for the same keys and vice versa, with the
date/identifier columns mirrored and the signed amount and tax differences
negated. -/
theorem presence_matching_symmetric (dateTol : ℤ) (amountTol : ℚ)
    (A B : List CleanRecord) :
    (performReconciliation dateTol amountTol B A).filter isMissingInGstr2aDisc =
      ((performReconciliation dateTol amountTol A B).filter isMissingInBooksDisc).map
        swapMissingBooksDisc ∧
    (performReconciliation dateTol amountTol B A).filter isMissingInBooksDisc =
      ((performReconciliation dateTol amountTol A B).filter isMissingInGstr2aDisc).map
        swapMissingGstr2aDisc := by
  constructor
  · simp only [performReconciliation, List.filter_append,
      dupSection_filter_missingB, dupSection_filter_missingG,
      missingB_filter_self, missingB_filter_other,
      missingG_filter_self, missingG_filter_other,
      compareSection_filter_missingB, compareSection_filter_missingG,
      List.nil_append, List.append_nil]
    exact missingSection_swapBG (keyedRows B) (keyedRows A)
  · simp only [performReconciliation, List.filter_append,
      dupSection_filter_missingB, dupSection_filter_missingG,
      missingB_filter_self, missingB_filter_other,
      missingG_filter_self, missingG_filter_other,
      compareSection_filter_missingB, compareSection_filter_missingG,
      List.nil_append, List.append_nil]
    exact missingSection_swapGB (keyedRows B) (keyedRows A)

/-! ## C7 -/

theorem toNat_bounds_of_isUpperAlnum (c : Char) (h : isUpperAlnum c = true) :
    (65 ≤ c.toNat ∧ c.toNat ≤ 90) ∨ (48 ≤ c.toNat ∧ c.toNat ≤ 57) := by
  rw [isUpperAlnum, Bool.or_eq_true] at h
  rcases h with h | h
  · left
    rw [Char.isUpper, Bool.and_eq_true, decide_eq_true_eq, decide_eq_true_eq] at h
    exact ⟨UInt32.le_toNat_of_le (by norm_num [UInt32.size]) h.1,
      UInt32.toNat_le_of_le (by norm_num [UInt32.size]) h.2⟩
  · right
    rw [Char.isDigit, Bool.and_eq_true, decide_eq_true_eq, decide_eq_true_eq] at h
    exact ⟨UInt32.le_toNat_of_le (by norm_num [UInt32.size]) h.1,
      UInt32.toNat_le_of_le (by norm_num [UInt32.size]) h.2⟩

theorem toUpper_of_isUpperAlnum (c : Char) (h : isUpperAlnum c = true) : c.toUpper = c := by
  have hb := toNat_bounds_of_isUpperAlnum c h
  have hn : ¬ (Char.toNat c ≥ 97 ∧ Char.toNat c ≤ 122) := by omega
  simp [Char.toUpper, hn]

theorem isWhitespace_of_isUpperAlnum (c : Char) (h : isUpperAlnum c = true) :
    c.isWhitespace = false := by
  have hb := toNat_bounds_of_isUpperAlnum c h
  rw [Char.isWhitespace]
  have h1 : ¬ (c = ' ') := by rintro rfl; revert hb; decide
  have h2 : ¬ (c = '\t') := by rintro rfl; revert hb; decide
  have h3 : ¬ (c = '\r') := by rintro rfl; revert hb; decide
  have h4 : ¬ (c = '\n') := by rintro rfl; revert hb; decide
  simp [h1, h2, h3, h4]

theorem dropWhile_eq_self_of_all (p : Char → Bool) (l : List Char)
    (h : ∀ c ∈ l, p c = false) : l.dropWhile p = l := by
  cases l with
  | nil => rfl
  | cons a t => simp [List.dropWhile_cons, h a (List.mem_cons_self a t)]

theorem pyStrip_of_all_isUpperAlnum (l : List Char) (h : ∀ c ∈ l, isUpperAlnum c = true) :
    pyStrip (String.mk l) = String.mk l := by
  have hw : ∀ c ∈ l, Char.isWhitespace c = false :=
    fun c hc => isWhitespace_of_isUpperAlnum c (h c hc)
  show String.mk (((l.dropWhile Char.isWhitespace).reverse.dropWhile
    Char.isWhitespace).reverse) = String.mk l
  rw [dropWhile_eq_self_of_all _ _ hw,
    dropWhile_eq_self_of_all _ _ (fun c hc => hw c (List.mem_reverse.mp hc)),
    List.reverse_reverse]

theorem pyUpper_of_all_isUpperAlnum (l : List Char) (h : ∀ c ∈ l, isUpperAlnum c = true) :
    pyUpper (String.mk l) = String.mk l := by
  show String.mk (l.map Char.toUpper) = String.mk l
  congr 1
  have : l.map Char.toUpper = l.map id :=
    List.map_congr_left (fun c hc => toUpper_of_isUpperAlnum c (h c hc))
  rw [this, List.map_id]

theorem clean_gstin_output (x : Option String) :
    clean_gstin x = emptyS ∨
    ((∀ c ∈ (clean_gstin x).toList, isUpperAlnum c = true) ∧
      (clean_gstin x).toList.length = 15) := by
  cases x with
  | none => exact Or.inl rfl
  | some s =>
      rw [clean_gstin]
      split_ifs with h1 h2 h3
      · exact Or.inl rfl
      · refine Or.inr ⟨?_, ?_⟩
        · intro c hc
          exact List.of_mem_filter (List.mem_of_mem_take hc)
        · show (List.take 15 _).length = 15
          rw [List.length_take]
          omega
      · refine Or.inr ⟨?_, ?_⟩
        · intro c hc
          rcases List.mem_append.mp hc with hc | hc
          · exact List.of_mem_filter hc
          · rw [(List.eq_of_mem_replicate hc)]
            decide
        · show (_ ++ List.replicate _ 'X').length = 15
          rw [List.length_append, List.length_replicate]
          omega
      · refine Or.inr ⟨?_, ?_⟩
        · intro c hc
          exact List.of_mem_filter hc
        · show (gstinCleanedChars s).length = 15
          omega

theorem clean_gstin_idem (x : Option String) :
    clean_gstin (some (clean_gstin x)) = clean_gstin x := by
  rcases clean_gstin_output x with h | ⟨hall, hlen⟩
  · rw [h]; decide
  · set r := clean_gstin x with hr
    have heta : String.mk r.toList = r := rfl
    have hstrip : pyStrip r = r := by
      have := pyStrip_of_all_isUpperAlnum r.toList hall
      rwa [heta] at this
    have hupper : pyUpper r = r := by
      have := pyUpper_of_all_isUpperAlnum r.toList hall
      rwa [heta] at this
    have hfilter : r.toList.filter isUpperAlnum = r.toList := List.filter_eq_self.mpr hall
    have hlower_len : (pyLower (pyStrip r)).toList.length = 15 := by
      rw [hstrip, pyLower]
      show (r.toList.map Char.toLower).length = 15
      rw [List.length_map, hlen]
    have hnp : ¬ (pyLower (pyStrip r) = emptyS ∨ pyLower (pyStrip r) = nanS ∨
        pyLower (pyStrip r) = noneLowerS) := by
      rintro (h | h | h) <;> rw [h] at hlower_len <;> exact absurd hlower_len (by decide)
    have hclean : gstinCleanedChars r = r.toList := by
      rw [gstinCleanedChars, hstrip, hupper, hfilter]
    rw [clean_gstin, if_neg hnp]
    simp only [hclean, hlen]
    rw [if_neg (by omega), if_neg (by omega)]
    exact heta

theorem cleanAgainRecord_fixed (ac ib : Bool) (r : CleanRecord)
    (hg : ac = true → clean_gstin (some r.supplier_gstin) = r.supplier_gstin)
    (hk : r.match_key = matchKeyOf r.invoice_no r.supplier_gstin)
    (hbe : ib = false → r.book_entry_date = none)
    (h1 : cleanNumericCell (pyFloatStr r.taxable_value) = r.taxable_value)
    (h2 : cleanNumericCell (pyFloatStr r.cgst) = r.cgst)
    (h3 : cleanNumericCell (pyFloatStr r.sgst) = r.sgst)
    (h4 : cleanNumericCell (pyFloatStr r.igst) = r.igst)
    (h5 : cleanNumericCell (pyFloatStr r.total_amount) = r.total_amount) :
    cleanAgainRecord ac ib r = r := by
  have hgst : (if ac then clean_gstin (some r.supplier_gstin) else r.supplier_gstin)
      = r.supplier_gstin := by
    cases ac
    · rfl
    · exact hg rfl
  have hbed : (if ib then r.book_entry_date else none) = r.book_entry_date := by
    cases ib
    · exact (hbe rfl).symm
    · rfl
  have hmk : matchKeyOf r.invoice_no
      (if ac then clean_gstin (some r.supplier_gstin) else r.supplier_gstin) = r.match_key := by
    rw [hgst, ← hk]
  obtain ⟨inv, idate, gst, tv, cg, sg, ig, tot, pos, bed, mkk⟩ := r
  rw [cleanAgainRecord]
  congr 1

/-- C7 counterexample: a total amount of `1e16` normalizes to `1e16`, but a
second normalization pass renders it as the scientific text `1e+16`, strips the
non-numeric characters to `116` and parses that - so normalizing the normalized
table changes the value and idempotence fails. -/
theorem normalization_idempotent_cex :
    (cleanRecord true false toyDayFirst toyMixed rawBig).total_amount = 10 ^ 16 ∧
    (cleanAgainRecord true false
        (cleanRecord true false toyDayFirst toyMixed rawBig)).total_amount = 116 ∧
    cleanAgainRecord true false (cleanRecord true false toyDayFirst toyMixed rawBig) ≠
      cleanRecord true false toyDayFirst toyMixed rawBig := by
  refine ⟨by decide, by decide, by decide⟩

/-- C7 amended: re-normalizing a normalized row is the identity provided each
of its five numeric values survives the float-to-text-to-number round trip
(which holds exactly when Python renders the value in fixed notation, i.e. zero
or in `[1e-4, 1e16)`): dates, invoice number, identifier, place of supply and
the recomputed match key are always stable, and under that proviso the whole
row is. -/
theorem normalization_idempotent_amended (ac ib : Bool) (f m : String → Option Int)
    (raw : RawRecord)
    (h1 : cleanNumericCell (pyFloatStr (cleanRecord ac ib f m raw).taxable_value) =
      (cleanRecord ac ib f m raw).taxable_value)
    (h2 : cleanNumericCell (pyFloatStr (cleanRecord ac ib f m raw).cgst) =
      (cleanRecord ac ib f m raw).cgst)
    (h3 : cleanNumericCell (pyFloatStr (cleanRecord ac ib f m raw).sgst) =
      (cleanRecord ac ib f m raw).sgst)
    (h4 : cleanNumericCell (pyFloatStr (cleanRecord ac ib f m raw).igst) =
      (cleanRecord ac ib f m raw).igst)
    (h5 : cleanNumericCell (pyFloatStr (cleanRecord ac ib f m raw).total_amount) =
      (cleanRecord ac ib f m raw).total_amount) :
    cleanAgainRecord ac ib (cleanRecord ac ib f m raw) = cleanRecord ac ib f m raw := by
  refine cleanAgainRecord_fixed ac ib _ ?_ rfl ?_ h1 h2 h3 h4 h5
  · intro hac
    subst hac
    exact clean_gstin_idem raw.supplier_gstin
  · intro hib
    subst hib
    rfl

theorem normalization_idempotent_amended_witness :
    cleanAgainRecord true false (cleanRecord true false toyDayFirst toyMixed rawGood) =
      cleanRecord true false toyDayFirst toyMixed rawGood :=
  normalization_idempotent_amended true false toyDayFirst toyMixed rawGood
    (by decide) (by decide) (by decide) (by decide) (by decide)

end GSTRecon
